import Mathlib

/-!
Verification of the shelflife-backend specification against a shallow
embedding of the source.

The embedding translates the JavaScript services and Mongoose models into
executable Lean definitions:

* `src/src/models/User.js` → `User`, `userPreSave` (the pre-save password
  hashing hook), `bcryptCompare` (the `comparePassword` method's body).
* `src/src/services/authService.js` → `AuthService.signup`, `AuthService.login`.
* `src/unnamed/part_001` (userService) → `UserService.resetPassword`.
* `src/src/models/Shelf.js` → `ShelfModel.addBookToShelf`,
  `ShelfModel.removeBookFromShelf`, the pre-validate duplicate hook
  (`validateBooks`).
* `src/src/services/shelfService.js` → `ShelfService.*`.
* `src/src/services/bookService.js` → `BookService.searchBooks`.
* `src/src/controllers/authController.js` → `AuthController.signup`.

Modelling conventions: Mongo object ids are `Nat`; timestamps are `Nat`
milliseconds; asynchronous database state is a `Store` record threaded
explicitly; a thrown JS `Error` is `Except.error` carrying the message
string, paired with the store as it stands when the throw happens (so a
failed call can still have mutated state, exactly as in the source).
Fields not touched by any verified property (roles, settings, timestamps,
book metadata beyond title/authors/shelf) are omitted; the `lowercase`
and string-length setters on User fields are likewise not exercised by
the properties and are omitted.

bcrypt is idealised as a collision-free salted hash: the value space of
the `password` column is the inductive `PwVal`, where `PwVal.bhash salt v`
stands for the bcrypt digest (with its embedded salt) of the input
string `v`, and `bcryptCompare cand stored` succeeds exactly when
`stored` is a bcrypt digest of `cand` — which is how `bcrypt.compare`
behaves on a collision-free hash. sha256 is idealised as an injective
digest `sha256hex`.
-/

namespace ShelfLife

/-- Value space of the `password` column: either an ordinary string
(`raw`) or a bcrypt digest `bhash salt input` of another value.
`bcrypt.hash(v, cost)` with a fresh salt is modelled by `bhash salt v`. -/
inductive PwVal where
  | raw (s : String)
  | bhash (salt : Nat) (input : PwVal)
deriving DecidableEq, Repr

/-- Model of `bcrypt.hash(v, 10)` with the freshly generated salt passed
explicitly. -/
def bcryptHash (salt : Nat) (v : PwVal) : PwVal :=
  PwVal.bhash salt v

/-- Model of `bcrypt.compare(candidate, stored)`: succeeds exactly when
`stored` is a bcrypt digest of `candidate` (collision-free idealisation). -/
def bcryptCompare (candidate stored : PwVal) : Bool :=
  match stored with
  | PwVal.bhash _ input => candidate == input
  | PwVal.raw _ => false

/-- Model of `crypto.createHash("sha256").update(s).digest("hex")` as an
injective digest: only equality of digests is ever observed by the code. -/
def sha256hex (s : String) : String :=
  String.append "sha256:" s

/-- A document of the `users` collection (`src/src/models/User.js`),
restricted to the fields the verified properties touch. -/
structure User where
  id : Nat
  username : String
  email : String
  password : PwVal
  profilePicture : String
  passwordResetToken : Option String := none
  passwordResetExpires : Option Nat := none
deriving DecidableEq, Repr

/-- A document of the `shelves` collection (`src/src/models/Shelf.js`). -/
structure Shelf where
  id : Nat
  userId : Nat
  name : String
  books : List Nat
deriving DecidableEq, Repr

/-- A document of the `books` collection, restricted to the fields the
verified properties touch (`title`, `authors`, the nullable `shelf`
reference). -/
structure Book where
  id : Nat
  title : String
  authors : List String
  shelf : Option Nat := none
deriving DecidableEq, Repr

/-- The whole database: the three collections, in storage order. -/
structure Store where
  users : List User
  shelves : List Shelf
  books : List Book
deriving DecidableEq, Repr

/-- Replace the first element satisfying `p` by `x` (model of a Mongoose
`save` / `findOneAndUpdate` writing back a single matched document). -/
def replaceFirst (p : α → Bool) (x : α) : List α → List α
  | [] => []
  | y :: ys => if p y then x :: ys else y :: replaceFirst p x ys

/-- The `userSchema.pre('save')` hook: when the password path is modified
(always the case for a new document and for an explicit password
assignment), the field is re-hashed with a fresh salt. -/
def userPreSave (passwordModified : Bool) (salt : Nat) (u : User) : User :=
  if passwordModified then { u with password := bcryptHash salt u.password } else u

/-- Session token issued by `jwt.sign({ sub: user._id }, secret, 1h)`;
signing is modelled as the payload itself. -/
structure SessionToken where
  sub : Nat
deriving DecidableEq, Repr

namespace AuthService

/-- Model of `authService.signup` (`src/src/services/authService.js` lines 13–39):
duplicate check on email or username in one query, explicit
`bcrypt.hash(password, 10)`, then `new User({...}).save()` — and the
save triggers the pre-save hook, which hashes the (already hashed)
password field a second time. `newId` is the id Mongo assigns, `s1` the
salt of the explicit hash, `s2` the salt used by the pre-save hook. -/
def signup (username email : String) (password : PwVal) (profilePicture : Option String)
    (newId s1 s2 : Nat) (st : Store) : Except String User × Store :=
  if st.users.any (fun u => u.email == email || u.username == username) then
    (Except.error "Email or username is already in use", st)
  else
    let hashedPassword := bcryptHash s1 password
    let newUser : User :=
      { id := newId
        username := username
        email := email
        password := hashedPassword
        profilePicture := profilePicture.getD "https://example.com/default-profile-pic.jpg" }
    let saved := userPreSave true s2 newUser
    (Except.ok saved, { st with users := st.users ++ [saved] })

/-- Model of `authService.login` (lines 47–74): find the user by email; both the
user-not-found case and the failed `bcrypt.compare` throw the identical
`Error('Invalid credentials')`; on success a session token embedding the
user id is signed. -/
def login (email : String) (password : PwVal) (st : Store) : Except String SessionToken :=
  match st.users.find? (fun u => u.email == email) with
  | none => Except.error "Invalid credentials"
  | some user =>
    if bcryptCompare password user.password then
      Except.ok { sub := user.id }
    else
      Except.error "Invalid credentials"

end AuthService

/-- The HTTP response the signup controller produces. -/
structure SignupResponse where
  status : Nat
  message : String
  user : Option User
deriving DecidableEq, Repr

namespace AuthController

/-- Model of `authController.signup` (`src/src/controllers/authController.js`
lines 11–42): on service success the 201 body embeds the service's
return value — the persisted user document, password field included —
verbatim; a service error goes to the error-handling middleware
(modelled as a response with no user). -/
def signup (username email : String) (password : PwVal) (profilePicture : Option String)
    (newId s1 s2 : Nat) (st : Store) : SignupResponse × Store :=
  match AuthService.signup username email password profilePicture newId s1 s2 st with
  | (Except.ok u, st2) =>
    ({ status := 201, message := "User created successfully", user := some u }, st2)
  | (Except.error _, st2) =>
    ({ status := 500, message := "error", user := none }, st2)

end AuthController

namespace UserService

/-- The match condition of the `User.findOne` query inside
`resetPassword`: the stored reset-token hash equals the presented
token's hash, and (`$gt`) the stored expiry is strictly later than the
current time; a document lacking either field does not match. -/
def resetTokenMatches (hashedToken : String) (now : Nat) (u : User) : Bool :=
  u.passwordResetToken == some hashedToken &&
    match u.passwordResetExpires with
    | some e => decide (now < e)
    | none => false

/-- Model of `userService.resetPassword` (`src/unnamed/part_001` lines 112–139):
hash the presented token, find a user whose stored hash matches and
whose expiry is still in the future, throw `Invalid or expired token`
otherwise; on success set the (explicitly bcrypt-hashed) new password,
clear both reset fields, and `save()` — which re-hashes the password via
the pre-save hook. `now` is `Date.now()`; `s1` is the explicit hash's
salt, `s2` the pre-save hook's salt. -/
def resetPassword (token : String) (newPassword : PwVal) (now s1 s2 : Nat)
    (st : Store) : Except String Unit × Store :=
  let hashedToken := sha256hex token
  match st.users.find? (resetTokenMatches hashedToken now) with
  | none => (Except.error "Invalid or expired token", st)
  | some user =>
    let hashedPassword := bcryptHash s1 newPassword
    let updated := userPreSave true s2
      { user with
          password := hashedPassword
          passwordResetToken := none
          passwordResetExpires := none }
    (Except.ok (), { st with users := replaceFirst (fun u => u.id == user.id) updated st.users })

end UserService

/-- The `shelfSchema.pre('validate')` hook (`src/src/models/Shelf.js`
lines 40–50): the books array, deduplicated through a `Set`, must have
the same length as the array itself. Returns `true` when validation
passes. -/
def validateBooks (books : List Nat) : Bool :=
  books.dedup.length == books.length

/-- Document validation run by every Mongoose `save` of a Shelf: the
pre-validate duplicate-book hook first, then the schema's name length
bounds (2–50). Returns the error message of the first failing check. -/
def shelfValidationError (s : Shelf) : Option String :=
  if !validateBooks s.books then
    some "Duplicate books are not allowed on the same shelf."
  else if !(decide (2 ≤ s.name.length) && decide (s.name.length ≤ 50)) then
    some "Shelf validation failed"
  else
    none

/-- Write-back of an already-persisted shelf document via `save()`:
validation runs first; on success the document with this id is replaced
in the collection. -/
def saveExistingShelf (s : Shelf) (st : Store) : Except String Shelf × Store :=
  match shelfValidationError s with
  | some e => (Except.error e, st)
  | none =>
    (Except.ok s, { st with shelves := replaceFirst (fun sh => sh.id == s.id) s st.shelves })

namespace ShelfModel

/-- Model of `shelfSchema.statics.addBookToShelf` (`src/src/models/Shelf.js`
lines 58–70): `findById` (no owner filter), reject when the book id is
already present, otherwise push and `save()`. -/
def addBookToShelf (shelfId bookId : Nat) (st : Store) : Except String Shelf × Store :=
  match st.shelves.find? (fun s => s.id == shelfId) with
  | none => (Except.error "Shelf not found.", st)
  | some shelf =>
    if shelf.books.contains bookId then
      (Except.error "Book is already in the shelf.", st)
    else
      saveExistingShelf { shelf with books := shelf.books ++ [bookId] } st

/-- Model of `shelfSchema.statics.removeBookFromShelf` (lines 77–84): `findById`,
filter the book id out of the array (a no-op when it is absent), and
`save()`. -/
def removeBookFromShelf (shelfId bookId : Nat) (st : Store) : Except String Shelf × Store :=
  match st.shelves.find? (fun s => s.id == shelfId) with
  | none => (Except.error "Shelf not found.", st)
  | some shelf =>
    saveExistingShelf { shelf with books := shelf.books.filter (fun b => b != bookId) } st

end ShelfModel

/-- The update object passed to `updateShelf` (a partial patch of the
shelf's mutable fields). -/
structure ShelfUpdate where
  name : Option String := none
  books : Option (List Nat) := none
deriving DecidableEq, Repr

/-- Apply a patch object as a Mongo `findOneAndUpdate` field update. -/
def applyShelfUpdate (upd : ShelfUpdate) (s : Shelf) : Shelf :=
  { s with name := upd.name.getD s.name, books := upd.books.getD s.books }

/-- The data object passed to `createShelf` (`new Shelf(shelfData)`). -/
structure ShelfData where
  userId : Nat
  name : Option String := none
  books : List Nat := []
deriving DecidableEq, Repr

namespace ShelfService

/-- Model of `shelfService.createShelf` (`src/src/services/shelfService.js`
lines 47–58): `new Shelf(shelfData)` (name defaulting to "New Shelf")
followed by `save()`, whose validation runs the duplicate-book hook and
the name bounds; any error is wrapped in the service's generic message. -/
def createShelf (d : ShelfData) (newId : Nat) (st : Store) : Except String Shelf × Store :=
  let s : Shelf :=
    { id := newId, userId := d.userId, name := d.name.getD "New Shelf", books := d.books }
  match shelfValidationError s with
  | some _ => (Except.error "Could not create the shelf. Please try again.", st)
  | none => (Except.ok s, { st with shelves := st.shelves ++ [s] })

/-- Model of `shelfService.updateShelf` (lines 67–85): `findOneAndUpdate` with the
filter `{ _id: shelfId, userId }` — the ownership gate — applying the
patch and returning the new document. Being a query update, it does NOT
run the document pre-validate middleware, so no duplicate-book check
happens here. -/
def updateShelf (shelfId userId : Nat) (upd : ShelfUpdate) (st : Store) :
    Except String Shelf × Store :=
  match st.shelves.find? (fun s => s.id == shelfId && s.userId == userId) with
  | none => (Except.error "Could not update the shelf. Please try again.", st)
  | some s =>
    let s2 := applyShelfUpdate upd s
    (Except.ok s2,
      { st with shelves := replaceFirst (fun sh => sh.id == shelfId && sh.userId == userId) s2 st.shelves })

/-- Model of `shelfService.deleteShelf` (lines 93–109): FIRST
`Book.updateMany({shelf: shelfId}, {$set: {shelf: null}})` —
unconditionally — and only THEN `findOneAndDelete({_id, userId})`; when
the latter matches nothing the service throws, but the book update has
already been committed. -/
def deleteShelf (shelfId userId : Nat) (st : Store) : Except String Shelf × Store :=
  let clearedBooks := st.books.map
    (fun b => if b.shelf == some shelfId then { b with shelf := none } else b)
  let st2 := { st with books := clearedBooks }
  match st2.shelves.find? (fun s => s.id == shelfId && s.userId == userId) with
  | none => (Except.error "Could not delete the shelf. Please try again.", st2)
  | some s =>
    (Except.ok s,
      { st2 with shelves := st2.shelves.eraseP (fun sh => sh.id == shelfId && sh.userId == userId) })

/-- Model of `shelfService.addBookToShelf` (lines 118–126): delegates to the model
static `Shelf.addBookToShelf(shelfId, bookId)`; the `userId` argument is
accepted but never used — no ownership check. Errors are wrapped in the
service's generic message. -/
def addBookToShelf (shelfId bookId userId : Nat) (st : Store) : Except String Shelf × Store :=
  match ShelfModel.addBookToShelf shelfId bookId st with
  | (Except.ok s, st2) => (Except.ok s, st2)
  | (Except.error _, st2) =>
    (Except.error "Could not add the book to the shelf. Please try again.", st2)

/-- Model of `shelfService.removeBookFromShelf` (lines 135–143): delegates to the
model static; the `userId` argument is accepted but never used. -/
def removeBookFromShelf (shelfId bookId userId : Nat) (st : Store) : Except String Shelf × Store :=
  match ShelfModel.removeBookFromShelf shelfId bookId st with
  | (Except.ok s, st2) => (Except.ok s, st2)
  | (Except.error _, st2) =>
    (Except.error "Could not remove the book from the shelf. Please try again.", st2)

end ShelfService

/-- Metacharacters of the JS regular-expression syntax. A query built
only from other characters is matched literally by `new RegExp(query)`. -/
def jsRegexMetachars : List Char :=
  ['.', '*', '+', '?', '(', ')', '[', ']', '{', '}', '|', '^', '$', '\\']

/-- Anchored match of a pattern against the beginning of a text, for the
fragment of JS regex the verified properties exercise: `.` matches any
single character, every other character matches itself, and the `i` flag
is lowercase folding. Patterns containing other metacharacters are
outside this model's domain of validity. -/
def matchHere : List Char → List Char → Bool
  | [], _ => true
  | _ :: _, [] => false
  | p :: ps, c :: cs => (p == '.' || p.toLower == c.toLower) && matchHere ps cs

/-- Unanchored search: `regex.test(text)` tries the anchored match at
every start position. -/
def regexSearch (pat : List Char) : List Char → Bool
  | [] => matchHere pat []
  | c :: cs => matchHere pat (c :: cs) || regexSearch pat cs

/-- Model of `new RegExp(query, 'i').test(text)` on the supported
fragment. -/
def jsRegexTestI (query text : String) : Bool :=
  regexSearch query.data text.data

/-- Modelled from the spec's words, for comparison with the code's
behaviour: anchored case-insensitive literal comparison of `pat` with a
leading segment of the text. -/
def ciLeadingSegment : List Char → List Char → Bool
  | [], _ => true
  | _ :: _, [] => false
  | a :: as, b :: bs => (a.toLower == b.toLower) && ciLeadingSegment as bs

/-- Modelled from the spec's words: `q` occurs as a case-insensitive
substring of `s`. -/
def ciSubstringAux (pat : List Char) : List Char → Bool
  | [] => ciLeadingSegment pat []
  | c :: cs => ciLeadingSegment pat (c :: cs) || ciSubstringAux pat cs

/-- Modelled from the spec's words: case-insensitive substring test on
strings. -/
def ciSubstringOf (q s : String) : Bool :=
  ciSubstringAux q.data s.data

namespace BookService

/-- Model of `bookService.searchBooks` (`src/src/services/bookService.js` lines
144–161): build `new RegExp(query, 'i')` — the query string is used as a
regex pattern, unescaped — and return the books whose title or any of
whose author names the regex matches. -/
def searchBooks (query : String) (st : Store) : List Book :=
  st.books.filter
    (fun b => jsRegexTestI query b.title || b.authors.any (fun a => jsRegexTestI query a))

end BookService

/-! ## Helper lemmas -/

/-- Any element of `replaceFirst p x l` is `x` or an element of `l`. -/
theorem mem_replaceFirst {p : α → Bool} {x y : α} :
    ∀ {l : List α}, y ∈ replaceFirst p x l → y = x ∨ y ∈ l := by
  intro l
  induction l with
  | nil => intro h; simp [replaceFirst] at h
  | cons a as ih =>
    intro h
    by_cases hp : p a
    · simp [replaceFirst, hp] at h
      rcases h with h | h
      · exact Or.inl h
      · exact Or.inr (List.mem_cons_of_mem a h)
    · simp [replaceFirst, hp] at h
      rcases h with h | h
      · exact Or.inr (h ▸ List.mem_cons_self a as)
      · rcases ih h with h2 | h2
        · exact Or.inl h2
        · exact Or.inr (List.mem_cons_of_mem a h2)

/-- Replacing the first match by the match itself leaves the list alone. -/
theorem replaceFirst_find?_self {p : α → Bool} {x : α} :
    ∀ {l : List α}, l.find? p = some x → replaceFirst p x l = l := by
  intro l
  induction l with
  | nil => intro h; simp at h
  | cons a as ih =>
    intro h
    by_cases hp : p a
    · rw [List.find?_cons_of_pos _ hp] at h
      injection h with h
      subst h
      simp [replaceFirst, hp]
    · rw [List.find?_cons_of_neg _ hp] at h
      simp [replaceFirst, hp, ih h]

/-- The duplicate-book hook passes exactly on duplicate-free arrays. -/
theorem validateBooks_iff_nodup (books : List Nat) :
    validateBooks books = true ↔ books.Nodup := by
  unfold validateBooks
  constructor
  · intro h
    have hlen : books.dedup.length = books.length := by
      simpa using h
    have hsub : books.dedup.Sublist books := List.dedup_sublist books
    have : books.dedup = books := hsub.eq_of_length hlen
    exact this ▸ List.nodup_dedup books
  · intro h
    rw [List.dedup_eq_self.mpr h]
    simp

/-- When document validation passes, the books array is duplicate-free. -/
theorem nodup_of_shelfValidationError_none {s : Shelf}
    (h : shelfValidationError s = none) : s.books.Nodup := by
  unfold shelfValidationError at h
  by_cases hv : validateBooks s.books
  · exact (validateBooks_iff_nodup s.books).mp hv
  · simp [hv] at h

/-- A login that throws always throws `Invalid credentials`, whichever of
the two checks failed. -/
theorem login_error_msg (email : String) (password : PwVal) (st : Store) (s : String)
    (h : AuthService.login email password st = Except.error s) :
    s = "Invalid credentials" := by
  unfold AuthService.login at h
  cases hfind : st.users.find? (fun u => u.email == email) with
  | none =>
    rw [hfind] at h
    injection h with h
    exact h.symm
  | some u =>
    rw [hfind] at h
    by_cases hc : bcryptCompare password u.password
    · simp [hc] at h
    · simp [hc] at h
      exact h.symm

/-- Success shape of the signup service: the saved user is appended to
the collection and its stored password is the double bcrypt digest. -/
theorem signup_ok_shape {username email : String} {password : PwVal}
    {profilePicture : Option String} {newId s1 s2 : Nat} {st st2 : Store} {u : User}
    (h : AuthService.signup username email password profilePicture newId s1 s2 st =
      (Except.ok u, st2)) :
    st2.users = st.users ++ [u] ∧
      u.password = bcryptHash s2 (bcryptHash s1 password) := by
  unfold AuthService.signup at h
  by_cases hdup : st.users.any (fun v => v.email == email || v.username == username)
  · simp [hdup] at h
  · simp only [hdup, Bool.false_eq_true, if_false] at h
    have h1 := congrArg Prod.fst h
    have h2 := congrArg Prod.snd h
    simp only at h1 h2
    injection h1 with h1
    constructor
    · rw [← h2, ← h1]
    · rw [← h1]
      rfl

/-! ## C1 -/

/-- C1: the claim requires `verify(plaintext, stored(signup(plaintext)))
= true`. The signup service hashes the password explicitly and the User
pre-save hook hashes the already-hashed field a second time, so the
stored value is `bhash s2 (bhash s1 plaintext)` and verifying the
plaintext against it fails. Evaluated at the failing input
`signup("alice", "alice@x.com", "secret1")`: the stored password is not
the plaintext (that half of the claim holds), verification fails, and a
follow-up login with the correct plaintext is rejected. -/
theorem c1_signup_verify_roundtrip_fails :
    ((AuthService.signup "alice" "alice@x.com" (PwVal.raw "secret1") none 1 0 1
        ⟨[], [], []⟩).1.toOption.map
      (fun u => (bcryptCompare (PwVal.raw "secret1") u.password,
                 u.password == PwVal.raw "secret1"))) = some (false, false) ∧
    AuthService.login "alice@x.com" (PwVal.raw "secret1")
        (AuthService.signup "alice" "alice@x.com" (PwVal.raw "secret1") none 1 0 1
          ⟨[], [], []⟩).2 =
      Except.error "Invalid credentials" := by
  constructor
  · decide
  · rfl

/-! ## C5 -/

/-- C5: any two failing logins — unregistered email or wrong password —
produce the identical error value, so the two causes are observationally
indistinguishable to the caller. -/
theorem c5_login_failures_indistinguishable (st : Store) (e1 e2 : String) (p1 p2 : PwVal)
    (h1 : ∃ s, AuthService.login e1 p1 st = Except.error s)
    (h2 : ∃ s, AuthService.login e2 p2 st = Except.error s) :
    AuthService.login e1 p1 st = AuthService.login e2 p2 st := by
  obtain ⟨s1, hs1⟩ := h1
  obtain ⟨s2, hs2⟩ := h2
  rw [hs1, hs2, login_error_msg e1 p1 st s1 hs1, login_error_msg e2 p2 st s2 hs2]

/-- Witness for C5: a store holding alice; an unregistered email and a
wrong password for alice fail with the same value. -/
theorem c5_witness :
    AuthService.login "missing@x.com" (PwVal.raw "whatever")
        ⟨[{ id := 1, username := "alice", email := "alice@x.com",
            password := PwVal.bhash 0 (PwVal.raw "secret1"),
            profilePicture := "p" }], [], []⟩ =
      AuthService.login "alice@x.com" (PwVal.raw "wrong")
        ⟨[{ id := 1, username := "alice", email := "alice@x.com",
            password := PwVal.bhash 0 (PwVal.raw "secret1"),
            profilePicture := "p" }], [], []⟩ :=
  c5_login_failures_indistinguishable _ _ _ _ _
    ⟨"Invalid credentials", by rfl⟩ ⟨"Invalid credentials", by rfl⟩

/-! ## C10 -/

/-- C10: a successful signup's 201 response embeds the persisted user
record verbatim — the password field is not stripped; it carries the
stored (double) bcrypt digest. -/
theorem c10_signup_response_embeds_stored_password
    (username email : String) (password : PwVal) (profilePicture : Option String)
    (newId s1 s2 : Nat) (st st2 : Store) (resp : SignupResponse)
    (h : AuthController.signup username email password profilePicture newId s1 s2 st =
      (resp, st2))
    (h201 : resp.status = 201) :
    ∃ u, resp.user = some u ∧ st2.users = st.users ++ [u] ∧
      u.password = bcryptHash s2 (bcryptHash s1 password) := by
  unfold AuthController.signup at h
  cases hs : AuthService.signup username email password profilePicture newId s1 s2 st with
  | mk r st3 =>
    cases r with
    | ok u =>
      rw [hs] at h
      have h1 := congrArg Prod.fst h
      have h2 := congrArg Prod.snd h
      simp only at h1 h2
      obtain ⟨happ, hpw⟩ := signup_ok_shape hs
      refine ⟨u, ?_, ?_, hpw⟩
      · rw [← h1]
      · rw [← h2]
        exact happ
    | error e =>
      rw [hs] at h
      have h1 := congrArg Prod.fst h
      simp only at h1
      rw [← h1] at h201
      simp at h201

/-- Witness for C10: concrete signup into an empty store. -/
theorem c10_witness :
    ∃ u, (AuthController.signup "alice" "alice@x.com" (PwVal.raw "secret1") none 1 0 1
            ⟨[], [], []⟩).1.user = some u ∧
      (AuthController.signup "alice" "alice@x.com" (PwVal.raw "secret1") none 1 0 1
          ⟨[], [], []⟩).2.users = ([] : List User) ++ [u] ∧
      u.password = bcryptHash 1 (bcryptHash 0 (PwVal.raw "secret1")) :=
  c10_signup_response_embeds_stored_password "alice" "alice@x.com" (PwVal.raw "secret1")
    none 1 0 1 ⟨[], [], []⟩ _ _ rfl rfl

/-! ## C6 -/

/-- The query condition of `resetPassword`, as a proposition. -/
theorem resetTokenMatches_iff (hashedToken : String) (now : Nat) (u : User) :
    UserService.resetTokenMatches hashedToken now u = true ↔
      u.passwordResetToken = some hashedToken ∧
        ∃ e, u.passwordResetExpires = some e ∧ now < e := by
  unfold UserService.resetTokenMatches
  cases hx : u.passwordResetExpires with
  | none => simp
  | some e => simp [hx]

/-- C6: `resetPassword` fails with `Invalid or expired token` exactly
when no stored user has a reset-token hash equal to the presented
token's hash together with an expiry strictly in the future; a matching
hash with a past expiry therefore fails, and on failure the store is
untouched. -/
theorem c6_resetPassword_invalid_iff (token : String) (newPassword : PwVal)
    (now s1 s2 : Nat) (st : Store) :
    ((UserService.resetPassword token newPassword now s1 s2 st).1 =
        Except.error "Invalid or expired token" ↔
      ¬ ∃ u ∈ st.users, u.passwordResetToken = some (sha256hex token) ∧
          ∃ e, u.passwordResetExpires = some e ∧ now < e) ∧
    ((UserService.resetPassword token newPassword now s1 s2 st).1 =
        Except.error "Invalid or expired token" →
      (UserService.resetPassword token newPassword now s1 s2 st).2 = st) := by
  unfold UserService.resetPassword
  cases hfind : st.users.find? (UserService.resetTokenMatches (sha256hex token) now) with
  | none =>
    simp only [hfind]
    rw [List.find?_eq_none] at hfind
    refine ⟨⟨fun _ => ?_, fun _ => by trivial⟩, fun _ => by trivial⟩
    rintro ⟨u, hu, htok, e, hexp, hlt⟩
    exact hfind u hu
      ((resetTokenMatches_iff (sha256hex token) now u).mpr ⟨htok, e, hexp, hlt⟩)
  | some u =>
    simp only [hfind]
    have hmem := List.mem_of_find?_eq_some hfind
    have hmatch := List.find?_some hfind
    rw [resetTokenMatches_iff] at hmatch
    refine ⟨⟨fun h => ?_, fun h => ?_⟩, fun h => ?_⟩
    · exact absurd h (by simp)
    · exact absurd ⟨u, hmem, hmatch⟩ h
    · exact absurd h (by simp)

/-- Witness for C6: alice's stored hash matches the presented token but
the expiry (10) is not strictly after the current time (10), so the call
fails and the store is unchanged. -/
theorem c6_witness :
    (UserService.resetPassword "tok" (PwVal.raw "newpass") 10 0 0
        ⟨[{ id := 1, username := "alice", email := "alice@x.com",
            password := PwVal.raw "h", profilePicture := "p",
            passwordResetToken := some (sha256hex "tok"),
            passwordResetExpires := some 10 }], [], []⟩).1 =
      Except.error "Invalid or expired token" ∧
    (UserService.resetPassword "tok" (PwVal.raw "newpass") 10 0 0
        ⟨[{ id := 1, username := "alice", email := "alice@x.com",
            password := PwVal.raw "h", profilePicture := "p",
            passwordResetToken := some (sha256hex "tok"),
            passwordResetExpires := some 10 }], [], []⟩).2 =
      ⟨[{ id := 1, username := "alice", email := "alice@x.com",
          password := PwVal.raw "h", profilePicture := "p",
          passwordResetToken := some (sha256hex "tok"),
          passwordResetExpires := some 10 }], [], []⟩ := by
  have h := c6_resetPassword_invalid_iff "tok" (PwVal.raw "newpass") 10 0 0
    ⟨[{ id := 1, username := "alice", email := "alice@x.com",
        password := PwVal.raw "h", profilePicture := "p",
        passwordResetToken := some (sha256hex "tok"),
        passwordResetExpires := some 10 }], [], []⟩
  have herr := h.1.mpr (by
    rintro ⟨u, hu, htok, e, hexp, hlt⟩
    simp only [List.mem_singleton] at hu
    subst hu
    simp only [Option.some.injEq] at hexp
    omega)
  exact ⟨herr, h.2 herr⟩

/-! ## C7 -/

/-- A reset whose query matches nothing throws the generic error. -/
theorem resetPassword_find?_none {token : String} {newPassword : PwVal}
    {now s1 s2 : Nat} {st : Store}
    (h : st.users.find? (UserService.resetTokenMatches (sha256hex token) now) = none) :
    (UserService.resetPassword token newPassword now s1 s2 st).1 =
      Except.error "Invalid or expired token" := by
  unfold UserService.resetPassword
  simp only [h]

/-- Success shape of `resetPassword`: the matched user is written back
with a re-hashed password and both reset fields cleared. -/
theorem resetPassword_ok_shape {token : String} {newPassword : PwVal}
    {now s1 s2 : Nat} {st : Store}
    (hok : (UserService.resetPassword token newPassword now s1 s2 st).1 = Except.ok ()) :
    ∃ u, st.users.find? (UserService.resetTokenMatches (sha256hex token) now) = some u ∧
      (UserService.resetPassword token newPassword now s1 s2 st).2 =
        { st with users := (replaceFirst (fun v => v.id == u.id)
            (userPreSave true s2
              { u with password := bcryptHash s1 newPassword,
                       passwordResetToken := none, passwordResetExpires := none })
            st.users) } := by
  unfold UserService.resetPassword at hok ⊢
  cases hfind : st.users.find? (UserService.resetTokenMatches (sha256hex token) now) with
  | none =>
    simp only [hfind] at hok
    simp at hok
  | some u =>
    simp only [hfind] at hok ⊢
    exact ⟨u, rfl, rfl⟩

/-- Key list lemma for single use: once the (unique) holder of the token
hash has both reset fields cleared, no user in the written-back
collection matches that hash at any later (or earlier) time. -/
theorem find?_after_clear (h : String) (now1 now2 : Nat) (updated : User)
    (hupd : updated.passwordResetToken = none) :
    ∀ (l : List User) (u : User),
      l.Pairwise (fun a b => a.id ≠ b.id) →
      l.countP (fun v => v.passwordResetToken == some h) ≤ 1 →
      l.find? (UserService.resetTokenMatches h now1) = some u →
      (replaceFirst (fun v => v.id == u.id) updated l).find?
        (UserService.resetTokenMatches h now2) = none := by
  intro l
  induction l with
  | nil => intro u _ _ hfind; simp at hfind
  | cons w ws ih =>
    intro u hpw hcount hfind
    have hnomatch : ∀ (v : User), v.passwordResetToken ≠ some h →
        UserService.resetTokenMatches h now2 v = false := by
      intro v hv
      unfold UserService.resetTokenMatches
      have hbeq : (v.passwordResetToken == some h) = false := by
        simpa using hv
      simp [hbeq]
    by_cases hw : UserService.resetTokenMatches h now1 w = true
    · rw [List.find?_cons_of_pos _ hw] at hfind
      injection hfind with hfind
      subst hfind
      have hwtok : w.passwordResetToken = some h :=
        ((resetTokenMatches_iff h now1 w).mp hw).1
      simp only [List.countP_cons, hwtok] at hcount
      simp at hcount
      have hrepl : replaceFirst (fun v => v.id == w.id) updated (w :: ws) =
          updated :: ws := by
        simp [replaceFirst]
      rw [hrepl, List.find?_eq_none]
      intro v hv hcon
      rcases List.mem_cons.mp hv with hv | hv
      · subst hv
        have hvt := ((resetTokenMatches_iff h now2 v).mp hcon).1
        rw [hupd] at hvt
        cases hvt
      · have hvtok : v.passwordResetToken ≠ some h := hcount v hv
        rw [hnomatch v hvtok] at hcon
        cases hcon
    · rw [List.find?_cons_of_neg _ hw] at hfind
      have hmem := List.mem_of_find?_eq_some hfind
      have hpw2 := List.pairwise_cons.mp hpw
      have hwid : (w.id == u.id) = false := by
        simpa using hpw2.1 u hmem
      have hutok : u.passwordResetToken = some h :=
        ((resetTokenMatches_iff h now1 u).mp (List.find?_some hfind)).1
      have hwtok : w.passwordResetToken ≠ some h := by
        intro hcontra
        simp [List.countP_cons, hcontra] at hcount
        exact hcount u hmem hutok
      have hcount2 : ws.countP (fun v => v.passwordResetToken == some h) ≤ 1 := by
        rw [List.countP_cons] at hcount
        omega
      have hrepl : replaceFirst (fun v => v.id == u.id) updated (w :: ws) =
          w :: replaceFirst (fun v => v.id == u.id) updated ws := by
        simp [replaceFirst, hwid]
      rw [hrepl]
      have hw2 : UserService.resetTokenMatches h now2 w = false := hnomatch w hwtok
      rw [List.find?_cons_of_neg _ (by simp [hw2])]
      exact ih u hpw2.2 hcount2 hfind

/-- C7: a reset token is single-use — when at most one stored user holds
the token's hash (ids being distinct as Mongo guarantees), a successful
`resetPassword` clears both reset fields, so presenting the same token
again fails with `Invalid or expired token` whatever the second call's
time and salts are. -/
theorem c7_reset_token_single_use (st : Store) (t : String) (p1 p2 : PwVal)
    (now1 now2 s1 s2 s3 s4 : Nat)
    (hids : st.users.Pairwise (fun a b => a.id ≠ b.id))
    (huniq : st.users.countP (fun v => v.passwordResetToken == some (sha256hex t)) ≤ 1)
    (hok : (UserService.resetPassword t p1 now1 s1 s2 st).1 = Except.ok ()) :
    (UserService.resetPassword t p2 now2 s3 s4
        (UserService.resetPassword t p1 now1 s1 s2 st).2).1 =
      Except.error "Invalid or expired token" := by
  obtain ⟨u, hfind, hst2⟩ := resetPassword_ok_shape hok
  rw [hst2]
  exact resetPassword_find?_none
    (find?_after_clear (sha256hex t) now1 now2 _ rfl st.users u hids huniq hfind)

/-- Witness for C7: alice holds the token hash with a future expiry; the
first call succeeds, the second presentation of the same token fails. -/
theorem c7_witness :
    (UserService.resetPassword "tok" (PwVal.raw "p2") 60 2 3
        (UserService.resetPassword "tok" (PwVal.raw "p1") 50 0 1
          ⟨[{ id := 1, username := "alice", email := "alice@x.com",
              password := PwVal.raw "h", profilePicture := "p",
              passwordResetToken := some (sha256hex "tok"),
              passwordResetExpires := some 100 }], [], []⟩).2).1 =
      Except.error "Invalid or expired token" :=
  c7_reset_token_single_use
    ⟨[{ id := 1, username := "alice", email := "alice@x.com",
        password := PwVal.raw "h", profilePicture := "p",
        passwordResetToken := some (sha256hex "tok"),
        passwordResetExpires := some 100 }], [], []⟩
    "tok" (PwVal.raw "p1") (PwVal.raw "p2") 50 60 0 1 2 3
    (by simp) (by decide) (by rfl)

/-! ## C2 -/

/-- Counterexample to C2: shelf 1 belongs to user 1 and book 10 points
at it; user 2's `deleteShelf(1, 2)` fails with the ownership error, yet
the store has changed — book 10's shelf reference was cleared before the
ownership gate ran. -/
theorem c2_counterexample :
    (ShelfService.deleteShelf 1 2
        ⟨[], [⟨1, 1, "Favorites", [10]⟩], [⟨10, "Dune", ["Frank Herbert"], some 1⟩]⟩).1 =
      Except.error "Could not delete the shelf. Please try again." ∧
    (ShelfService.deleteShelf 1 2
        ⟨[], [⟨1, 1, "Favorites", [10]⟩], [⟨10, "Dune", ["Frank Herbert"], some 1⟩]⟩).2 ≠
      ⟨[], [⟨1, 1, "Favorites", [10]⟩], [⟨10, "Dune", ["Frank Herbert"], some 1⟩]⟩ :=
  ⟨rfl, by decide⟩

/-- C2 amended: when `deleteShelf` fails its ownership/existence gate,
the shelves and users collections are untouched, but every book pointing
at the target shelf id has already had its `shelf` reference cleared —
the state is unchanged only when no book referenced that id. -/
theorem c2_deleteShelf_failure_state (shelfId userId : Nat) (st : Store)
    (h : ∃ e, (ShelfService.deleteShelf shelfId userId st).1 = Except.error e) :
    (ShelfService.deleteShelf shelfId userId st).2.users = st.users ∧
    (ShelfService.deleteShelf shelfId userId st).2.shelves = st.shelves ∧
    (ShelfService.deleteShelf shelfId userId st).2.books =
      st.books.map
        (fun b => if b.shelf == some shelfId then { b with shelf := none } else b) := by
  obtain ⟨e, he⟩ := h
  unfold ShelfService.deleteShelf at he ⊢
  cases hfind : (st.books.map
      (fun b => if b.shelf == some shelfId then { b with shelf := none } else b)
      |> fun bs => ({ st with books := bs } : Store)).shelves.find?
      (fun s => s.id == shelfId && s.userId == userId) with
  | none =>
    simp only [hfind]
    exact ⟨by trivial, by trivial, by trivial⟩
  | some s =>
    simp only [hfind] at he
    cases he

/-- Witness for C2 amended: the same concrete failed deletion, with the
final state spelled out. -/
theorem c2_witness :
    (ShelfService.deleteShelf 1 2
        ⟨[], [⟨1, 1, "Favorites", [10]⟩], [⟨10, "Dune", ["Frank Herbert"], some 1⟩]⟩).2.users =
      ([] : List User) ∧
    (ShelfService.deleteShelf 1 2
        ⟨[], [⟨1, 1, "Favorites", [10]⟩], [⟨10, "Dune", ["Frank Herbert"], some 1⟩]⟩).2.shelves =
      [⟨1, 1, "Favorites", [10]⟩] ∧
    (ShelfService.deleteShelf 1 2
        ⟨[], [⟨1, 1, "Favorites", [10]⟩], [⟨10, "Dune", ["Frank Herbert"], some 1⟩]⟩).2.books =
      [⟨10, "Dune", ["Frank Herbert"], some 1⟩].map
        (fun b => if b.shelf == some 1 then { b with shelf := none } else b) :=
  c2_deleteShelf_failure_state 1 2
    ⟨[], [⟨1, 1, "Favorites", [10]⟩], [⟨10, "Dune", ["Frank Herbert"], some 1⟩]⟩
    ⟨"Could not delete the shelf. Please try again.", by rfl⟩

/-! ## C3 -/

/-- C3: the claim requires every shelf-mutating operation to fail for a
requester who is not the stored owner. `shelfService.addBookToShelf`
accepts the requester's id but never consults it: with shelf 1 owned by
user 1, requester 2's call succeeds and the shelf is mutated, so the
ownership invariant does not hold for the add/remove-book operations.
(`updateShelf` and `deleteShelf` do filter on `userId`.) -/
theorem c3_non_owner_can_mutate_shelf :
    (ShelfService.addBookToShelf 1 5 2 ⟨[], [⟨1, 1, "Favorites", []⟩], []⟩).1 =
      Except.ok ⟨1, 1, "Favorites", [5]⟩ ∧
    (ShelfService.addBookToShelf 1 5 2 ⟨[], [⟨1, 1, "Favorites", []⟩], []⟩).2.shelves =
      [⟨1, 1, "Favorites", [5]⟩] ∧
    (2 : Nat) ≠ 1 :=
  ⟨rfl, by decide, by decide⟩

/-! ## C4 -/

/-- Counterexample to C4: `updateShelf` is a `findOneAndUpdate` query
update, which runs no document pre-validate middleware — patching shelf
1's books to `[7, 7]` succeeds and the duplicate list is persisted. -/
theorem c4_counterexample :
    (ShelfService.updateShelf 1 1 { books := some [7, 7] }
        ⟨[], [⟨1, 1, "Favorites", []⟩], []⟩).1 =
      Except.ok ⟨1, 1, "Favorites", [7, 7]⟩ ∧
    (ShelfService.updateShelf 1 1 { books := some [7, 7] }
        ⟨[], [⟨1, 1, "Favorites", []⟩], []⟩).2.shelves =
      [⟨1, 1, "Favorites", [7, 7]⟩] ∧
    ¬ ([7, 7] : List Nat).Nodup :=
  ⟨rfl, by decide, by decide⟩

/-- Duplicate-freedom of every shelf's books array. -/
def shelvesNodup (st : Store) : Prop :=
  ∀ s ∈ st.shelves, s.books.Nodup

/-- Passing validation includes passing the duplicate-book hook. -/
theorem validateBooks_of_validationError_none {s : Shelf}
    (h : shelfValidationError s = none) : validateBooks s.books = true := by
  unfold shelfValidationError at h
  by_cases hv : validateBooks s.books
  · exact hv
  · simp [hv] at h

/-- A `save()` write-back of a shelf document preserves the invariant. -/
theorem saveExistingShelf_preserves {s : Shelf} {st st2 : Store}
    {r : Except String Shelf}
    (hn : shelvesNodup st) (h : saveExistingShelf s st = (r, st2)) :
    shelvesNodup st2 := by
  unfold saveExistingShelf at h
  cases hv : shelfValidationError s with
  | some e =>
    rw [hv] at h
    have h2 := congrArg Prod.snd h
    simp only at h2
    rw [← h2]
    exact hn
  | none =>
    rw [hv] at h
    have h2 := congrArg Prod.snd h
    simp only at h2
    rw [← h2]
    intro v hv2
    rcases mem_replaceFirst hv2 with hveq | hvmem
    · rw [hveq]
      exact (validateBooks_iff_nodup s.books).mp (validateBooks_of_validationError_none hv)
    · exact hn v hvmem

/-- The add-book service call ends in the same store as the model static. -/
theorem addBookToShelf_store_eq (shelfId bookId userId : Nat) (st : Store) :
    (ShelfService.addBookToShelf shelfId bookId userId st).2 =
      (ShelfModel.addBookToShelf shelfId bookId st).2 := by
  unfold ShelfService.addBookToShelf
  cases hm : ShelfModel.addBookToShelf shelfId bookId st with
  | mk r st2 => cases r <;> simp

/-- The remove-book service call ends in the same store as the model
static. -/
theorem removeBookFromShelf_store_eq (shelfId bookId userId : Nat) (st : Store) :
    (ShelfService.removeBookFromShelf shelfId bookId userId st).2 =
      (ShelfModel.removeBookFromShelf shelfId bookId st).2 := by
  unfold ShelfService.removeBookFromShelf
  cases hm : ShelfModel.removeBookFromShelf shelfId bookId st with
  | mk r st2 => cases r <;> simp

/-- The model's add-book static preserves the invariant. -/
theorem modelAddBook_preserves (shelfId bookId : Nat) (st : Store)
    (hn : shelvesNodup st) :
    shelvesNodup (ShelfModel.addBookToShelf shelfId bookId st).2 := by
  unfold ShelfModel.addBookToShelf
  cases hfind : st.shelves.find? (fun s => s.id == shelfId) with
  | none => simpa only [hfind] using hn
  | some shelf =>
    simp only [hfind]
    by_cases hc : shelf.books.contains bookId
    · simpa only [hc, if_true] using hn
    · simp only [hc, Bool.false_eq_true, if_false]
      cases hsave : saveExistingShelf { shelf with books := shelf.books ++ [bookId] } st with
      | mk r st2 =>
        have := saveExistingShelf_preserves hn hsave
        simpa only [hsave] using this

/-- The model's remove-book static preserves the invariant. -/
theorem modelRemoveBook_preserves (shelfId bookId : Nat) (st : Store)
    (hn : shelvesNodup st) :
    shelvesNodup (ShelfModel.removeBookFromShelf shelfId bookId st).2 := by
  unfold ShelfModel.removeBookFromShelf
  cases hfind : st.shelves.find? (fun s => s.id == shelfId) with
  | none => simpa only [hfind] using hn
  | some shelf =>
    simp only [hfind]
    cases hsave : saveExistingShelf
        { shelf with books := shelf.books.filter (fun b => b != bookId) } st with
    | mk r st2 =>
      have := saveExistingShelf_preserves hn hsave
      simpa only [hsave] using this

/-- C4 amended: the duplicate-book invariant is preserved by every
persisting operation that goes through a document `save` — `createShelf`,
`addBookToShelf`, `removeBookFromShelf` — while `updateShelf` (a query
update) performs no re-check, as the counterexample shows. -/
theorem c4_save_paths_preserve_nodup (st : Store) (hn : shelvesNodup st) :
    (∀ d newId, shelvesNodup (ShelfService.createShelf d newId st).2) ∧
    (∀ shelfId bookId userId,
      shelvesNodup (ShelfService.addBookToShelf shelfId bookId userId st).2) ∧
    (∀ shelfId bookId userId,
      shelvesNodup (ShelfService.removeBookFromShelf shelfId bookId userId st).2) := by
  refine ⟨fun d newId => ?_, fun shelfId bookId userId => ?_, fun shelfId bookId userId => ?_⟩
  · unfold ShelfService.createShelf
    cases hv : shelfValidationError
        { id := newId, userId := d.userId, name := d.name.getD "New Shelf", books := d.books } with
    | some e => simpa only [hv] using hn
    | none =>
      simp only [hv]
      intro v hv2
      rcases List.mem_append.mp hv2 with hvmem | hveq
      · exact hn v hvmem
      · rw [List.mem_singleton.mp hveq]
        exact (validateBooks_iff_nodup _).mp (validateBooks_of_validationError_none hv)
  · rw [addBookToShelf_store_eq]
    exact modelAddBook_preserves shelfId bookId st hn
  · rw [removeBookFromShelf_store_eq]
    exact modelRemoveBook_preserves shelfId bookId st hn

/-- Witness for C4 amended: a concrete store on which all three save
paths keep every shelf duplicate-free. -/
theorem c4_witness :
    shelvesNodup (ShelfService.createShelf ⟨5, some "Sci-Fi", [1, 2]⟩ 2
      ⟨[], [⟨1, 1, "Favorites", [10]⟩], []⟩).2 ∧
    shelvesNodup (ShelfService.addBookToShelf 1 11 1
      ⟨[], [⟨1, 1, "Favorites", [10]⟩], []⟩).2 ∧
    shelvesNodup (ShelfService.removeBookFromShelf 1 10 1
      ⟨[], [⟨1, 1, "Favorites", [10]⟩], []⟩).2 := by
  have h := c4_save_paths_preserve_nodup ⟨[], [⟨1, 1, "Favorites", [10]⟩], []⟩
    (by intro s hs; simp at hs; subst hs; decide)
  exact ⟨h.1 ⟨5, some "Sci-Fi", [1, 2]⟩ 2, h.2.1 1 11 1, h.2.2 1 10 1⟩

/-! ## C9 -/

/-- C9: on a shelf that exists, adding an already-present book id fails
with `Book is already in the shelf.` and leaves the store untouched,
while removing an absent book id succeeds and returns the shelf with its
books array exactly as before, the store again untouched (the shelf is
assumed to be a valid stored document: duplicate-free books, name within
bounds — i.e. its validation passes). -/
theorem c9_add_duplicate_remove_absent (st : Store) (shelfId bookId : Nat) (s : Shelf)
    (hfind : st.shelves.find? (fun sh => sh.id == shelfId) = some s) :
    (bookId ∈ s.books →
      ShelfModel.addBookToShelf shelfId bookId st =
        (Except.error "Book is already in the shelf.", st)) ∧
    (bookId ∉ s.books → shelfValidationError s = none →
      ShelfModel.removeBookFromShelf shelfId bookId st = (Except.ok s, st)) := by
  constructor
  · intro hmem
    unfold ShelfModel.addBookToShelf
    simp only [hfind]
    have hc : s.books.contains bookId = true := List.elem_eq_true_of_mem hmem
    rw [if_pos hc]
  · intro habs hvalid
    unfold ShelfModel.removeBookFromShelf
    simp only [hfind]
    have hfilter : s.books.filter (fun b => b != bookId) = s.books := by
      rw [List.filter_eq_self]
      intro b hb
      have : b ≠ bookId := fun hbb => habs (hbb ▸ hb)
      simpa using this
    have hsid : (s.id == shelfId) = true := by
      simpa using List.find?_some hfind
    have hsid2 : s.id = shelfId := by simpa using hsid
    have hpred : (fun sh : Shelf => sh.id == s.id) = (fun sh : Shelf => sh.id == shelfId) := by
      funext sh
      rw [hsid2]
    unfold saveExistingShelf
    rw [show ({ s with books := s.books.filter (fun b => b != bookId) } : Shelf) = s by
      rw [hfilter]]
    rw [hvalid]
    rw [hpred, replaceFirst_find?_self hfind]

/-- Witness for C9: shelf 1 holds book 10; adding 10 again fails with
the store untouched, removing absent 99 succeeds returning the shelf
unchanged. -/
theorem c9_witness :
    ShelfModel.addBookToShelf 1 10 ⟨[], [⟨1, 1, "Favorites", [10]⟩], []⟩ =
      (Except.error "Book is already in the shelf.",
        ⟨[], [⟨1, 1, "Favorites", [10]⟩], []⟩) ∧
    ShelfModel.removeBookFromShelf 1 99 ⟨[], [⟨1, 1, "Favorites", [10]⟩], []⟩ =
      (Except.ok ⟨1, 1, "Favorites", [10]⟩, ⟨[], [⟨1, 1, "Favorites", [10]⟩], []⟩) :=
  ⟨(c9_add_duplicate_remove_absent ⟨[], [⟨1, 1, "Favorites", [10]⟩], []⟩ 1 10
      ⟨1, 1, "Favorites", [10]⟩ (by decide)).1 (by decide),
   (c9_add_duplicate_remove_absent ⟨[], [⟨1, 1, "Favorites", [10]⟩], []⟩ 1 99
      ⟨1, 1, "Favorites", [10]⟩ (by decide)).2 (by decide) (by decide)⟩

/-! ## C8 -/

/-- Counterexample to C8: the query string is compiled into a regex
without escaping, so the metacharacter query `"x.z"` matches the book
titled `"xyz"` (`.` is a wildcard) even though `"x.z"` is not a
case-insensitive substring of the title or of any author name — the
claimed substring characterisation fails on metacharacter queries. -/
theorem c8_counterexample :
    (⟨1, "xyz", ["ann"], none⟩ : Book) ∈
      BookService.searchBooks "x.z" ⟨[], [], [⟨1, "xyz", ["ann"], none⟩]⟩ ∧
    ciSubstringOf "x.z" "xyz" = false ∧
    (["ann"].all (fun a => !ciSubstringOf "x.z" a)) = true := by
  refine ⟨?_, by decide, by decide⟩
  simp [BookService.searchBooks]
  decide

/-- On a pattern free of regex metacharacters the anchored matcher is a
literal case-insensitive comparison. -/
theorem matchHere_no_meta (pat : List Char)
    (hp : ∀ c ∈ pat, c ∉ jsRegexMetachars) :
    ∀ txt, matchHere pat txt = ciLeadingSegment pat txt := by
  induction pat with
  | nil => intro txt; cases txt <;> rfl
  | cons p ps ih =>
    intro txt
    cases txt with
    | nil => rfl
    | cons c cs =>
      have hdot : (p == '.') = false := by
        have hpmem := hp p (List.mem_cons_self p ps)
        by_cases hd : p = '.'
        · exact absurd (hd ▸ (by decide : ('.' : Char) ∈ jsRegexMetachars)) hpmem
        · simpa using hd
      have ihtail := ih (fun c hc => hp c (List.mem_cons_of_mem p hc)) cs
      show (((p == '.') || p.toLower == c.toLower) && matchHere ps cs) =
        ((p.toLower == c.toLower) && ciLeadingSegment ps cs)
      rw [hdot, Bool.false_or, ihtail]

/-- On a pattern free of regex metacharacters the unanchored search is
the case-insensitive substring test. -/
theorem regexSearch_no_meta (pat : List Char)
    (hp : ∀ c ∈ pat, c ∉ jsRegexMetachars) :
    ∀ txt, regexSearch pat txt = ciSubstringAux pat txt := by
  intro txt
  induction txt with
  | nil => exact matchHere_no_meta pat hp []
  | cons c cs ih =>
    show (matchHere pat (c :: cs) || regexSearch pat cs) =
      (ciLeadingSegment pat (c :: cs) || ciSubstringAux pat cs)
    rw [matchHere_no_meta pat hp (c :: cs), ih]

/-- Metacharacter-free regex testing is substring testing. -/
theorem jsRegexTestI_no_meta (q : String)
    (hq : ∀ c ∈ q.data, c ∉ jsRegexMetachars) (t : String) :
    jsRegexTestI q t = ciSubstringOf q t :=
  regexSearch_no_meta q.data hq t.data

/-- C8 amended: for every query free of regex metacharacters, a stored
book is in `searchBooks(query)`'s result exactly when the query is a
case-insensitive substring of its title or of at least one author name
(so the spec's "potter" example holds); queries are interpreted as
unescaped regex patterns, so for metacharacter queries the substring
characterisation fails, as the counterexample shows. -/
theorem c8_searchBooks_literal_queries (q : String) (st : Store) (b : Book)
    (hq : ∀ c ∈ q.data, c ∉ jsRegexMetachars) :
    b ∈ BookService.searchBooks q st ↔
      b ∈ st.books ∧
        (ciSubstringOf q b.title || b.authors.any (fun a => ciSubstringOf q a)) = true := by
  unfold BookService.searchBooks
  rw [List.mem_filter]
  have hfun := jsRegexTestI_no_meta q hq
  constructor
  · rintro ⟨hmem, hpred⟩
    simp only [hfun] at hpred
    exact ⟨hmem, hpred⟩
  · rintro ⟨hmem, hpred⟩
    refine ⟨hmem, ?_⟩
    simp only [hfun]
    exact hpred

/-- Witness for C8 amended: the spec's own example. `"potter"` has no
metacharacters; it matches the book titled "Harry Potter" and the book
authored by "J.K. Rowling-Potter", and does not match "Hunger Games". -/
theorem c8_witness :
    (⟨1, "Harry Potter", ["J.K. Rowling"], none⟩ : Book) ∈
      BookService.searchBooks "potter"
        ⟨[], [], [⟨1, "Harry Potter", ["J.K. Rowling"], none⟩,
                  ⟨2, "Some Book", ["J.K. Rowling-Potter"], none⟩,
                  ⟨3, "Hunger Games", ["Suzanne Collins"], none⟩]⟩ ∧
    (⟨2, "Some Book", ["J.K. Rowling-Potter"], none⟩ : Book) ∈
      BookService.searchBooks "potter"
        ⟨[], [], [⟨1, "Harry Potter", ["J.K. Rowling"], none⟩,
                  ⟨2, "Some Book", ["J.K. Rowling-Potter"], none⟩,
                  ⟨3, "Hunger Games", ["Suzanne Collins"], none⟩]⟩ ∧
    ¬ (⟨3, "Hunger Games", ["Suzanne Collins"], none⟩ : Book) ∈
      BookService.searchBooks "potter"
        ⟨[], [], [⟨1, "Harry Potter", ["J.K. Rowling"], none⟩,
                  ⟨2, "Some Book", ["J.K. Rowling-Potter"], none⟩,
                  ⟨3, "Hunger Games", ["Suzanne Collins"], none⟩]⟩ :=
  ⟨(c8_searchBooks_literal_queries "potter" _ _ (by decide)).mpr (by decide),
   (c8_searchBooks_literal_queries "potter" _ _ (by decide)).mpr (by decide),
   fun h =>
     absurd ((c8_searchBooks_literal_queries "potter" _ _ (by decide)).mp h).2
       (by decide)⟩

end ShelfLife
